import Mathlib

/-!
Verification of the edge-native Firebase authentication core and the Mongo
connection proxy of this repository (`src/lib/firebase-admin.ts`,
`src/middleware.ts`, `src/lib/mongoDurableObject.ts`, `src/lib/utils.ts`).

The TypeScript code is shallowly embedded: pure control flow becomes Lean
functions, remote effects (HTTP fetches, WebCrypto calls, the Mongo driver)
become explicit oracle inputs, and module-level mutable caches become explicit
state threaded through the functions.  Timestamps are `Int` seconds since
epoch, exactly as in the source (`Math.floor(Date.now() / 1000)`).
-/

namespace FirebaseAdmin

/-- Tests that `l` starts with `p` (character-level, the semantics of JavaScript
`String.prototype.startsWith` on the strings involved here). -/
def listStartsWith (l p : List Char) : Bool :=
  l.take p.length == p

/-- String form of `listStartsWith`, i.e. `s.startsWith(p)`. -/
def strStartsWith (s p : String) : Bool :=
  listStartsWith s.toList p.toList

/-- JavaScript truthiness of an optional string: `undefined`/absent and the
empty string are falsy, every other string is truthy.  Mirrors guards such as
`if (!header.kid)` and `if (userRecord.tokensValidAfterTime)`. -/
def truthyStr : Option String → Bool
  | none => false
  | some s => s ≠ ""

/-- JavaScript whitespace characters recognised by `parseInt` when skipping a
leading run (the common ECMAScript WhiteSpace/LineTerminator set). -/
def isJsWhitespace (c : Char) : Bool :=
  c = ' ' || c = '\t' || c = '\n' || c = '\x0d' || c = '\x0b' || c = '\x0c'

/-- Digits-to-value helper for `parseIntJS`. -/
def digitsToNat (ds : List Char) : Nat :=
  ds.foldl (fun a c => a * 10 + (c.toNat - 48)) 0

/-- JavaScript `parseInt(s, 10)`: skip leading whitespace, consume an optional
sign, then a maximal run of decimal digits; the result is `NaN` (here `none`)
exactly when that run is empty.  Trailing garbage is ignored, as in JS. -/
def parseIntJS (s : String) : Option Int :=
  let cs := s.toList.dropWhile isJsWhitespace
  let signAndRest : Int × List Char :=
    match cs with
    | '-' :: rest => (-1, rest)
    | '+' :: rest => (1, rest)
    | _ => (1, cs)
  let digits := signAndRest.2.takeWhile Char.isDigit
  if digits.isEmpty then none
  else some (signAndRest.1 * (digitsToNat digits : Int))

/-- A JSON Web Key as it appears in the fetched JWKS, with the fields the
source inspects, plus the outcome of `crypto.subtle.importKey` on it (an
opaque remote/crypto effect). -/
structure JwkM where
  kty : String
  alg : Option String
  kid : Option String
  n : Option String
  e : Option String
  importOk : Bool
deriving Repr, DecidableEq

/-- The HTTP response of the JWKS fetch: `response.ok`, the `cache-control`
header, and the parsed `keys` array; `none` at the call site models a rejected
`fetch`. -/
structure FetchResponseM where
  ok : Bool
  cacheControl : Option String
  keys : List JwkM
deriving Repr, DecidableEq

/-- The `JwkCacheEntry` of the source: the cached key map is represented by its
key ids (`CryptoKey` values are opaque), with a single expiry for the set. -/
structure JwkCacheEntry where
  keys : List String
  expiry : Int
deriving Repr, DecidableEq

/-- The malformedness test of the source:
`jwk.kty !== \x27RSA\x27 || !jwk.alg || !jwk.kid || !jwk.n || !jwk.e`
(JS falsiness, so an empty-string field counts as missing). -/
def jwkMalformed (j : JwkM) : Bool :=
  j.kty ≠ "RSA" || ¬ truthyStr j.alg || ¬ truthyStr j.kid || ¬ truthyStr j.n || ¬ truthyStr j.e

/-- The regex search `/max-age=(\d+)/` over the cache-control header: the first
occurrence of `max-age=` followed by at least one decimal digit yields the
value of that maximal digit run. -/
def findMaxAgeList : List Char → Option Nat
  | [] => none
  | c :: rest =>
    if listStartsWith (c :: rest) "max-age=".toList then
      let ds := ((c :: rest).drop 8).takeWhile Char.isDigit
      if ds.isEmpty then findMaxAgeList rest
      else some (digitsToNat ds)
    else findMaxAgeList rest

/-- Models `maxAgeMatch ? parseInt(maxAgeMatch[1], 10) : 3600`: absence of the header
or an unmatched pattern defaults to 3600 seconds. -/
def parseMaxAge : Option String → Nat
  | none => 3600
  | some s => (findMaxAgeList s.toList).getD 3600

/-- Result of a `#fetchGooglePublicKeys` call: the returned key ids or the
thrown error code, together with the module-level `jwkCache` after the call. -/
structure KeyFetchOut where
  result : Except String (List String)
  cache : Option JwkCacheEntry
deriving Repr

/-- The cache-miss path of `#fetchGooglePublicKeys`.  A rejected `fetch` or a
rejected `importKey` is not a `FirebaseAuthError`, so the outer catch wraps it
as `jwk-processing-error`; a synchronously thrown `invalid-jwk` settles before
any asynchronous import failure, so malformed keys dominate.  `jwkCache` is
only assigned on full success. -/
def fetchMiss (cache : Option JwkCacheEntry) (now : Int)
    (resp : Option FetchResponseM) : KeyFetchOut :=
  match resp with
  | none => ⟨.error "jwk-processing-error", cache⟩
  | some r =>
    if ¬ r.ok then ⟨.error "jwk-fetch-failed", cache⟩
    else
      let maxAge := parseMaxAge r.cacheControl
      if r.keys.any jwkMalformed then ⟨.error "invalid-jwk", cache⟩
      else if r.keys.any (fun j => ! j.importOk) then ⟨.error "jwk-processing-error", cache⟩
      else
        let kids := r.keys.filterMap (fun j => j.kid)
        if kids.isEmpty then ⟨.error "no-valid-jwks", cache⟩
        else ⟨.ok kids, some ⟨kids, now + maxAge⟩⟩

/-- Models `FirebaseAdmin.#fetchGooglePublicKeys`: serve from `jwkCache` while
`now < expiry`, otherwise run the fetch/import path. -/
def fetchGooglePublicKeys (cache : Option JwkCacheEntry) (now : Int)
    (resp : Option FetchResponseM) : KeyFetchOut :=
  match cache with
  | some entry => if now < entry.expiry then ⟨.ok entry.keys, cache⟩ else fetchMiss cache now resp
  | none => fetchMiss cache now resp

/-- The `AccessToken` cache entry of the source. -/
structure AccessToken where
  token : String
  expiry : Int
deriving Repr, DecidableEq

/-- Result of a `#fetchAccessToken` call: the returned/thrown outcome, the
module-level `accessTokenCache` after the call, and how many signed-assertion
exchanges (JWT signing + POST to the token endpoint) the call performed. -/
structure TokenFetchOut where
  result : Except String AccessToken
  cache : Option AccessToken
  exchanges : Nat
deriving Repr

/-- The miss path of `#fetchAccessToken`: one signed-assertion exchange; on a
2xx answer the token is cached with `expiry = now + expires_in - 60`. -/
def doExchange (cache : Option AccessToken) (now : Int)
    (exchange : Except String (String × Int)) : TokenFetchOut :=
  match exchange with
  | .error _ => ⟨.error "token-fetch-failed", cache, 1⟩
  | .ok (tok, expiresIn) => ⟨.ok ⟨tok, now + expiresIn - 60⟩, some ⟨tok, now + expiresIn - 60⟩, 1⟩

/-- Models `FirebaseAdmin.#fetchAccessToken`: serve the cached token while
`now < expiry` (the 60-second buffer is built into the stored expiry),
otherwise perform the exchange. -/
def fetchAccessToken (cache : Option AccessToken) (now : Int)
    (exchange : Except String (String × Int)) : TokenFetchOut :=
  match cache with
  | some t => if now < t.expiry then ⟨.ok t, cache, 0⟩ else doExchange cache now exchange
  | none => doExchange cache now exchange

/-- A JSON value usable as a custom-claim value (the source takes `unknown`;
scalar values suffice for the properties at stake). -/
inductive JsonVal where
  | jstr (s : String)
  | jnum (n : Int)
  | jbool (b : Bool)
  | jnull
deriving Repr, DecidableEq

/-- Lower-case hex digit. -/
def hexDigit (n : Nat) : Char :=
  if n < 10 then Char.ofNat (48 + n) else Char.ofNat (87 + n)

/-- Four-digit hex rendering used by JSON control-character escapes. -/
def hex4 (n : Nat) : String :=
  String.mk [hexDigit (n / 4096 % 16), hexDigit (n / 256 % 16),
             hexDigit (n / 16 % 16), hexDigit (n % 16)]

/-- Per-character escaping of `JSON.stringify` for string values. -/
def escChar (c : Char) : String :=
  if c = '"' then "\\\""
  else if c = '\\' then "\\\\"
  else if c = '\x08' then "\\b"
  else if c = '\t' then "\\t"
  else if c = '\n' then "\\n"
  else if c = '\x0c' then "\\f"
  else if c = '\x0d' then "\\r"
  else if c.toNat < 32 then "\\u" ++ hex4 c.toNat
  else String.singleton c

/-- Concatenation of the escaped characters of a string body. -/
def escCharList : List Char → String
  | [] => ""
  | c :: cs => escChar c ++ escCharList cs

/-- Rendering of `JSON.stringify` for a string. -/
def jsonQuote (s : String) : String :=
  "\"" ++ escCharList s.toList ++ "\""

/-- Rendering of `JSON.stringify` for a scalar claim value. -/
def jsonOfVal : JsonVal → String
  | .jstr s => jsonQuote s
  | .jnum n => toString n
  | .jbool true => "true"
  | .jbool false => "false"
  | .jnull => "null"

/-- The comma-separated member list of a serialised JSON object. -/
def jsonMembers : List (String × JsonVal) → String
  | [] => ""
  | [kv] => jsonQuote kv.1 ++ ":" ++ jsonOfVal kv.2
  | kv :: rest => jsonQuote kv.1 ++ ":" ++ jsonOfVal kv.2 ++ "," ++ jsonMembers rest

/-- Rendering of `JSON.stringify` for a claims object (`\x7b"k":v,...\x7d`); the empty
object serialises to two bytes. -/
def jsonStringifyObj (obj : List (String × JsonVal)) : String :=
  "\x7b" ++ jsonMembers obj ++ "\x7d"

/-- UTF-8 byte length of a string (`new TextEncoder().encode(s).length`): the
sum of the UTF-8 sizes of its code points. -/
def utf8Len (s : String) : Nat :=
  (s.toList.map Char.utf8Size).sum

/-- The `#RESERVED_CLAIMS` denylist, verbatim from the source. -/
def RESERVED_CLAIMS : List String :=
  ["acr", "amr", "at_hash", "aud", "auth_time", "azp", "cnf", "c_hash", "exp", "firebase",
   "iat", "iss", "jti", "nbf", "nonce", "sub", "email", "email_verified", "phone_number",
   "name", "picture", "given_name", "family_name", "middle_name", "nickname",
   "preferred_username", "profile", "zoneinfo", "locale", "address", "gender", "birthdate",
   "updated_at"]

/-- The `#MAX_CLAIMS_PAYLOAD_SIZE` ceiling from the source. -/
def MAX_CLAIMS_PAYLOAD_SIZE : Nat := 1000

/-- First key of the claims object that is in the reserved denylist, in the
iteration order of `Object.keys`. -/
def findReservedKey (obj : List (String × JsonVal)) : Option String :=
  (obj.map (fun kv => kv.1)).find? (fun k => RESERVED_CLAIMS.contains k)

/-- Size validation + submission tail of `setCustomUserClaims`: the payload
size is the UTF-8 byte length (`TextEncoder`) of the JSON string; reaching
`.ok` is the point where the `accounts:update` network request is issued, with
the returned string as `customAttributes`. -/
def sizeCheckAndSend (claimsToSet : List (String × JsonVal)) : Except String String :=
  let claimsJsonString := jsonStringifyObj claimsToSet
  if utf8Len claimsJsonString > MAX_CLAIMS_PAYLOAD_SIZE then .error "claims-too-large"
  else .ok claimsJsonString

/-- Models `FirebaseAdmin.setCustomUserClaims` up to the network boundary: `null` or
an empty object resets the claims (no reserved-key validation); otherwise the
keys are validated against the denylist before the size check. -/
def setCustomUserClaims (claims : Option (List (String × JsonVal))) : Except String String :=
  match claims with
  | none => sizeCheckAndSend []
  | some l =>
    if l.isEmpty then sizeCheckAndSend []
    else
      match findReservedKey l with
      | some _ => .error "invalid-claims"
      | none => sizeCheckAndSend l

/-- Decoded JWT header, as used by `verifyIdToken` (`alg`, optional `kid`). -/
structure JwtHeaderM where
  alg : String
  kid : Option String
deriving Repr, DecidableEq

/-- Decoded JWT payload (`DecodedIdToken`): each claim is optional because the
source checks presence/type dynamically (`typeof payload.iat !== "number"` in spirit; the source uses single quotes). -/
structure JwtPayloadM where
  aud : Option String
  iss : Option String
  sub : Option String
  auth_time : Option Int
  iat : Option Int
  exp : Option Int
  uid : Option String
  email_verified : Option Bool
deriving Repr, DecidableEq

/-- User record returned by the Admin API `accounts:lookup` call
(`FirebaseUserRecord` in the source); `tokensValidAfterTime` is a string of
seconds since epoch when present. -/
structure FirebaseUserRecord where
  localId : String
  tokensValidAfterTime : Option String
deriving Repr, DecidableEq

/-- Failure of `#makeFirebaseAdminApiRequest`: either the `fetch` itself
rejects (network failure) or the endpoint answers non-2xx (the method throws a
`FirebaseAuthError` carrying the HTTP status). -/
inductive LookupErr where
  | network (msg : String)
  | httpError (status : Nat)
deriving Repr, DecidableEq

/-- Shape of the `accounts:lookup` JSON response: an optional `users` array. -/
structure LookupResponse where
  users : Option (List FirebaseUserRecord)
deriving Repr, DecidableEq

/-- Models `FirebaseAdmin.#getUserRecord`: any thrown error is caught and turned into
`null`, and `response?.users?.[0] || null` takes the first user of the array
when present (user records are objects, hence truthy). -/
def getUserRecord (resp : Except LookupErr LookupResponse) : Option FirebaseUserRecord :=
  match resp with
  | .error _ => none
  | .ok r =>
    match r.users with
    | none => none
    | some us => us.head?

/-- The `FIREBASE_ISSUER` constant from the source. -/
def FIREBASE_ISSUER (projectId : String) : String :=
  "https://securetoken.google.com/" ++ projectId

/-- The revocation block of `verifyIdToken` (source lines 497-525), applied to
the looked-up user record, the token auth_time and the payload to return:
no record is a hard `user-not-found`; a truthy `tokensValidAfterTime` is
parsed with `parseInt`, `NaN` is a hard `invalid-revocation-format`, and a
parsed value revokes exactly when `auth_time` is smaller; a falsy
`tokensValidAfterTime` means the user tokens were never revoked. -/
def revocationCheck (urec : Option FirebaseUserRecord) (authTime : Int)
    (outPayload : JwtPayloadM) : Except String JwtPayloadM :=
  match urec with
  | none => .error "user-not-found"
  | some r =>
    if truthyStr r.tokensValidAfterTime then
      match parseIntJS (r.tokensValidAfterTime.getD "") with
      | some validSince =>
        if authTime < validSince then .error "id-token-revoked" else .ok outPayload
      | none => .error "invalid-revocation-format"
    else .ok outPayload

/-- The remote/crypto environment a single `verifyIdToken` call runs against:
the outcome of `#fetchGooglePublicKeys` (an error code, or the set of key ids
present in the fetched key map), the outcome of `crypto.subtle.verify` on this
token, and the raw outcome of the `accounts:lookup` request used when
revocation checking is requested. -/
structure VerifyEnv where
  keyFetch : Except String (List String)
  sigOk : Bool
  lookup : Except LookupErr LookupResponse
deriving Repr

/-- Result of `verifyIdToken`: the returned payload or the thrown
`FirebaseAuthError` code, together with whether the public-key fetch
(`#fetchGooglePublicKeys`) was invoked during the call. -/
structure VerifyOut where
  result : Except String JwtPayloadM
  keyFetchInvoked : Bool
deriving Repr

/-- Subject validity per the source check
`!payload.sub || typeof payload.sub !== "string" || payload.sub.length === 0 ||
payload.sub.length > 128`. -/
def validSub : Option String → Bool
  | none => false
  | some s => s ≠ "" && s.length ≤ 128

/-- Models `FirebaseAdmin.verifyIdToken` on an already-decoded token (the
`decode`/format stage of the source is the precondition of having a header and
payload at all).  The ordered validation pipeline of the source is reproduced
branch by branch; `env` supplies the outcomes of the remote/crypto stages. -/
def verifyIdToken (projectId : String) (header : JwtHeaderM) (payload : JwtPayloadM)
    (checkRevoked : Bool) (now : Int) (env : VerifyEnv) : VerifyOut :=
  if header.alg ≠ "RS256" then ⟨.error "invalid-algorithm", false⟩
  else if ¬ truthyStr header.kid then ⟨.error "missing-kid", false⟩
  else if payload.aud ≠ some projectId then ⟨.error "invalid-audience", false⟩
  else if payload.iss ≠ some (FIREBASE_ISSUER projectId) then ⟨.error "invalid-issuer", false⟩
  else if ¬ validSub payload.sub then ⟨.error "invalid-subject", false⟩
  else if checkRevoked && payload.auth_time.isNone then ⟨.error "missing-auth-time", false⟩
  else
    match payload.iat with
    | none => ⟨.error "missing-iat", false⟩
    | some iat =>
      if iat > now + 300 then ⟨.error "iat-in-future", false⟩
      else
        match payload.exp with
        | none => ⟨.error "missing-expiration", false⟩
        | some exp =>
          if exp ≤ now then ⟨.error "token-expired", false⟩
          else
            -- signature phase: `#fetchGooglePublicKeys` is invoked here
            match env.keyFetch with
            | .error code => ⟨.error code, true⟩
            | .ok kids =>
              -- `header.kid` is truthy at this point, so `getD ""` is the kid itself
              if ¬ kids.contains (header.kid.getD "") then ⟨.error "no-matching-kid", true⟩
              else if ¬ env.sigOk then ⟨.error "invalid-signature", true⟩
              else
                -- `payload.uid = payload.sub` (uid standardisation)
                let outPayload := { payload with uid := payload.sub }
                if checkRevoked then
                  -- `authTime as number` is safe: presence was checked above
                  ⟨revocationCheck (getUserRecord env.lookup) (payload.auth_time.getD 0) outPayload, true⟩
                else ⟨.ok outPayload, true⟩

end FirebaseAdmin

namespace Middleware

open FirebaseAdmin

/-- A response produced by the middleware (`src/middleware.ts`):
* `next hs` — a pass-through `NextResponse.next()` whose headers are exactly
  the ones the middleware code set on it;
* `redirectTo path` — `NextResponse.redirect(new URL(path, req.url))`, built by
  the `redirect` helper, which sets no extra headers;
* `jsonError status` — the `new Response(JSON.stringify(msg), {status})` built
  by the generic branch of `errorHandler`, the default export of the apiError
  module (imported by the middleware as `apiError`): a bare `Response` with
  the given status on which no headers are set; the JSON body only echoes the
  argument and is abstracted away. -/
inductive MwResponse where
  | next (headers : List (String × String))
  | redirectTo (path : String)
  | jsonError (status : Nat)
deriving Repr, DecidableEq

/-- Argument shapes this repository passes to the apiError module (its
default-exported `errorHandler`): the middleware passes a plain object
carrying a numeric `status` field and a `message` string; route handlers pass
an `Error`, which has no `status` field.  Neither is a `ZodError`, so only
the generic (else) branch of `errorHandler` is reachable from these call
sites.  The `message`/`e.message` value flows only into the JSON body, which
carries no headers, so it is not tracked. -/
inductive ApiErrorArg where
  | statusObject (status : Nat)
  | jsError
deriving Repr, DecidableEq

/-- Models `errorHandler`, the default export of the apiError module, on the
arguments above.  The generic branch computes the status as
`e instanceof Object && "status" in e && typeof e.status === "number"
  ? e.status : 500`
— the carried status for the plain `{status, message}` object, 500 for an
`Error` — and returns `new Response(JSON.stringify(msg), { status })`, on
which no headers are set. -/
def errorHandler : ApiErrorArg → MwResponse
  | .statusObject status => .jsonError status
  | .jsError => .jsonError 500

/-- The CSP value computed in the source: the template literal
`"\n    frame-ancestors \x27self\x27;  \n  "` with whitespace runs collapsed
(`replace(/\s\x7b2,\x7d/g, <space>)`) and then trimmed. -/
def contentSecurityPolicyHeaderValue : String := "frame-ancestors \x27self\x27;"

/-- The `authRoutes` list from the source. -/
def authRoutes : List String :=
  ["/login", "/signup", "/reset", "/forget-pass", "/reset-pass", "/verify-email",
   "/recover-email"]

/-- The `excludedRoutes` of the source: `URLPattern`s with an exact pathname and
wildcard search/hash, so matching is exact pathname equality. -/
def excludedRoutes : List String := ["/api/lemon", "/api/hc", "/api/hello"]

/-- The authentication state the middleware derives from the request:
`decodedToken`/`verificationError` after the direct-token-verification block
(lines 129-150).  `failedFb code` is a thrown `FirebaseAuthError` with that
code; `noToken` is the plain `Error(\x27No token provided\x27)`. -/
inductive MwAuthState where
  | valid (tok : JwtPayloadM)
  | failedFb (code : String)
  | noToken
deriving Repr, DecidableEq

/-- A middleware request: the pathname, the `mode`/`oobCode` query parameters
(used by the `/auth/action` branch), and the outcome of the token extraction +
`verifyIdToken` call. -/
structure MwRequest where
  pathname : String
  mode : Option String
  oobCode : Option String
  auth : MwAuthState
deriving Repr, DecidableEq

/-- The shared `res = NextResponse.next()` object: the CSP header is set on it
unconditionally before any routing decision, and API allows add identity
headers on top. -/
def mwRes (extra : List (String × String)) : MwResponse :=
  .next (("Content-Security-Policy", contentSecurityPolicyHeaderValue) :: extra)

/-- The `x-iat` header is only set under `if (decodedToken.iat)`: a numeric `iat` of `0`
is falsy and sets no header. -/
def iatHeader : Option Int → List (String × String)
  | none => []
  | some i => if i = 0 then [] else [("x-iat", toString i)]

/-- The `middleware` function of `src/middleware.ts`, assuming Firebase Admin
initialisation succeeds (environment variables present).  The best-effort
`revokeRefreshTokens` side effects swallow their own errors and do not change
the returned response, so they are not part of the response model. -/
def middleware (req : MwRequest) : MwResponse :=
  if excludedRoutes.contains req.pathname then mwRes []
  else if req.pathname = "/auth/action" then
    -- the switch on `mode`; `sp.get(\x27oobCode\x27)` is null when absent and the
    -- template literal renders it as the string "null"
    match req.mode with
    | none => .next []   -- `default:` — a fresh response, no CSP header
    | some m =>
      if m = "signIn" then .redirectTo ("/signup?code=" ++ req.oobCode.getD "null")
      else if m = "resetPassword" then .redirectTo ("/reset-pass?code=" ++ req.oobCode.getD "null")
      else if m = "verifyEmail" then .redirectTo ("/verify-email?code=" ++ req.oobCode.getD "null")
      else if m = "recoverEmail" then .redirectTo ("/recover-email?code=" ++ req.oobCode.getD "null")
      else .next []      -- `default:` — a fresh response, no CSP header
  else if strStartsWith req.pathname "/api" then
    match req.auth with
    | .valid tok =>
      if tok.email_verified ≠ some true then
        -- best-effort revocation, then apiError with status 401, message "Email not verified"
        errorHandler (.statusObject 401)
      else
        mwRes (("x-uid", tok.uid.getD "") :: iatHeader tok.iat)
    | .failedFb code =>
      -- apiError with the 401/403 ternary and message `verificationError?.message`
      errorHandler (.statusObject
        (if code = "id-token-expired" ∨ code = "id-token-revoked" then 401 else 403))
    | .noToken =>
      -- the plain no-token Error is not a FirebaseAuthError, so the ternary picks 403
      errorHandler (.statusObject 403)
  else
    match req.auth with
    | .valid tok =>
      if tok.email_verified ≠ some true then
        if authRoutes.contains req.pathname then mwRes [] else .redirectTo "/login"
      else if ("/try" :: authRoutes).contains req.pathname then .redirectTo "/"
      else mwRes []
    | _ =>
      if ("/try" :: authRoutes).contains req.pathname then mwRes [] else .redirectTo "/login"

/-- Composition of the middleware with the verifier exactly as the middleware
performs it: `firebaseAdmin.verifyIdToken(token)` with `checkRevoked`
defaulted to `false`; a thrown `FirebaseAuthError` becomes
`verificationError`, absence of a token becomes the plain error. -/
def runRequest (projectId pathname : String) (mode oobCode : Option String)
    (tok : Option (JwtHeaderM × JwtPayloadM)) (now : Int) (env : VerifyEnv) : MwResponse :=
  match tok with
  | none => middleware ⟨pathname, mode, oobCode, .noToken⟩
  | some (h, p) =>
    match (verifyIdToken projectId h p false now env).result with
    | .ok payload => middleware ⟨pathname, mode, oobCode, .valid payload⟩
    | .error code => middleware ⟨pathname, mode, oobCode, .failedFb code⟩

/-- Whether a middleware response carries the Content-Security-Policy header. -/
def hasCSP : MwResponse → Bool
  | .next hs => hs.any (fun kv => kv.1 = "Content-Security-Policy")
  | .redirectTo _ => false
  | .jsonError _ => false

end Middleware

namespace MongoDO

/-- Observable state of a `MongoDurableObject` instance
(`src/lib/mongoDurableObject.ts`): whether `dbInstance` is set, whether
`connectPromise` holds an in-flight promise, and how many times
`client.connect()` has been invoked over the instance lifetime. -/
structure ConnState where
  dbInstance : Bool
  connectPromiseActive : Bool
  connectCalls : Nat
deriving Repr, DecidableEq

/-- State of a freshly constructed instance: `dbInstance = null`,
`connectPromise = null`, no connect attempt yet. -/
def freshConn : ConnState := ⟨false, false, 0⟩

/-- What one `ensureConnected` call does during its synchronous prefix (the
code it runs before first suspending): return immediately, start awaiting the
stored in-flight promise, or initiate a new attempt. -/
inductive CallPhase where
  | returned
  | awaitingExisting
  | initiated
deriving Repr, DecidableEq

/-- The synchronous prefix of `ensureConnected` under the single-threaded
cooperative scheduling of the platform: a set `dbInstance` returns at once; a
stored `connectPromise` is awaited; otherwise a new attempt starts — the async
closure runs synchronously up to its first await, so `client.connect()` is
invoked here, and the promise is stored in `connectPromise`. -/
def ensureConnectedSync (s : ConnState) : ConnState × CallPhase :=
  if s.dbInstance then (s, .returned)
  else if s.connectPromiseActive then (s, .awaitingExisting)
  else ({ s with connectPromiseActive := true, connectCalls := s.connectCalls + 1 },
        .initiated)

/-- Run the synchronous prefixes of `n` concurrent `findOne`/`ensureConnected`
calls in arrival order (no other code interleaves a synchronous prefix). -/
def runArrivals : Nat → ConnState → ConnState × List CallPhase
  | 0, s => (s, [])
  | n + 1, s =>
    let step := ensureConnectedSync s
    let rest := runArrivals n step.1
    (rest.1, step.2 :: rest.2)

/-- Settlement of the in-flight connect attempt: on success the handle is
stored (`connectPromise` is NOT cleared — the `finally` that would clear it is
commented out in the source); on failure the catch block clears both
`dbInstance` and `connectPromise` before re-throwing. -/
def settle (success : Bool) (s : ConnState) : ConnState :=
  if success then { s with dbInstance := true }
  else { s with dbInstance := false, connectPromiseActive := false }

/-- What a suspended caller observes when the promise it awaited settles. -/
inductive ResumeOutcome where
  | errored
  | connected
  | fellThrough
deriving Repr, DecidableEq

/-- Resumption of a caller that awaited the connect promise: a rejected
promise makes the `await` throw (the error propagates out of `findOne`); on
resolution the caller re-checks `dbInstance` and returns when it is set,
falling through to a fresh attempt otherwise. -/
def resumeWaiter (success : Bool) (s : ConnState) : ResumeOutcome :=
  if ¬ success then .errored
  else if s.dbInstance then .connected
  else .fellThrough

/-- A BSON value as stored in a document; `objectId` is the raw driver
identifier type, carrying its hex representation. -/
inductive BsonValue where
  | objectId (hex : String)
  | bstr (s : String)
  | bnum (n : Int)
  | bbool (b : Bool)
  | bnull
deriving Repr, DecidableEq

/-- Whether a value is a raw driver `ObjectId`. -/
def BsonValue.isObjectId : BsonValue → Bool
  | .objectId _ => true
  | _ => false

/-- Whether a value is a plain string. -/
def BsonValue.isString : BsonValue → Bool
  | .bstr _ => true
  | _ => false

/-- The serialization fix of `MongoDurableObject.findOne`: a shallow copy in
which the `_id` field, and only the `_id` field, is converted from `ObjectId`
to its string form (`ObjectId.toString()`, the hex string); every other field
and every non-`ObjectId` `_id` passes through unchanged. -/
def sanitizeDoc (doc : List (String × BsonValue)) : List (String × BsonValue) :=
  doc.map fun kv =>
    if kv.1 = "_id" then
      match kv.2 with
      | .objectId h => (kv.1, .bstr h)
      | v => (kv.1, v)
    else kv

/-- The result transformation of `findOne` on the raw driver result: `null`
is returned as is, a found document goes through the serialization fix.
(Connection establishment is `ensureConnectedSync`/`settle` above; driver
errors propagate to the caller after logging.) -/
def findOneResult (rawResult : Option (List (String × BsonValue))) :
    Option (List (String × BsonValue)) :=
  match rawResult with
  | none => none
  | some doc => some (sanitizeDoc doc)

end MongoDO

namespace Fixtures

open FirebaseAdmin

/-- A well-formed test header (`RS256`, known key id). -/
def demoHeader : JwtHeaderM := ⟨"RS256", some "kid1"⟩

/-- A payload passing every structural check for project `demo-project` at
times up to 8999. -/
def demoPayload : JwtPayloadM :=
  { aud := some "demo-project", iss := some (FIREBASE_ISSUER "demo-project"),
    sub := some "user-1", auth_time := some 1000, iat := some 1000, exp := some 9000,
    uid := some "user-1", email_verified := some true }

/-- An environment in which the key fetch succeeds with `kid1` present, the
signature verifies, and the user lookup finds a record with no
`tokensValidAfterTime`. -/
def demoEnv : VerifyEnv := ⟨.ok ["kid1"], true, .ok ⟨some [⟨"user-1", none⟩]⟩⟩

end Fixtures

open FirebaseAdmin Middleware MongoDO Fixtures

/-- UTF-8 length distributes over string concatenation. -/
theorem utf8Len_append (a b : String) : utf8Len (a ++ b) = utf8Len a + utf8Len b := by
  cases a with | mk xs =>
  cases b with | mk ys =>
  show ((xs ++ ys).map Char.utf8Size).sum
      = (xs.map Char.utf8Size).sum + (ys.map Char.utf8Size).sum
  rw [List.map_append, List.sum_append]

/-- The escaped encoding of a run of `n` letters `x` occupies `n` bytes. -/
theorem utf8Len_escCharList_x (n : Nat) :
    utf8Len (escCharList (List.replicate n 'x')) = n := by
  induction n with
  | zero => rfl
  | succ m ih =>
    rw [List.replicate_succ]
    show utf8Len (escChar 'x' ++ escCharList (List.replicate m 'x')) = m + 1
    rw [utf8Len_append, ih, show utf8Len (escChar 'x') = 1 from by decide]
    omega

/-- Under the hypotheses that the structural pipeline, the key lookup and the
signature check all pass, `verifyIdToken` with `checkRevoked = true` reduces to
the revocation block applied to the user-lookup outcome. -/
theorem verifyIdToken_revoked_eq (projectId : String) (header : JwtHeaderM)
    (payload : JwtPayloadM) (now : Int) (env : VerifyEnv)
    (kids : List String) (iat0 exp0 aTime : Int)
    (h1 : header.alg = "RS256") (h2 : truthyStr header.kid = true)
    (h3 : payload.aud = some projectId)
    (h4 : payload.iss = some (FIREBASE_ISSUER projectId))
    (h5 : validSub payload.sub = true)
    (hat : payload.auth_time = some aTime)
    (h6 : payload.iat = some iat0) (h7 : iat0 ≤ now + 300)
    (h8 : payload.exp = some exp0) (h9 : now < exp0)
    (h10 : env.keyFetch = .ok kids)
    (h11 : kids.contains (header.kid.getD "") = true)
    (h12 : env.sigOk = true) :
    verifyIdToken projectId header payload true now env
      = ⟨revocationCheck (getUserRecord env.lookup) aTime { payload with uid := payload.sub },
         true⟩ := by
  have h7' : ¬ (iat0 > now + 300) := by omega
  have h9' : ¬ (exp0 ≤ now) := by omega
  have h11' : header.kid.getD "" ∈ kids := by simpa using h11
  simp [verifyIdToken, h1, h2, h3, h4, h5, h6, h8, h10, h11', h12, hat, h7', h9']

/-- C1: for API-route requests with a failing bearer token, the middleware is
claimed to answer 401 on expiry/revocation codes and 403 otherwise, and in
particular 401 for a token whose `exp` has passed.  The code disagrees on the
instance: its own verifier throws the code `token-expired` for an expired
token, while the 401 branch of the middleware tests for `id-token-expired` (and
`id-token-revoked`, which the `checkRevoked = false` call never produces), so
an expired token on a non-excluded API route is denied with 403. -/
theorem C1_expired_api_token_gets_403 :
    (verifyIdToken "demo-project" demoHeader { demoPayload with exp := some 1000 }
        false 5000 demoEnv).result = .error "token-expired" ∧
    runRequest "demo-project" "/api/forms/xyz" none none
        (some (demoHeader, { demoPayload with exp := some 1000 })) 5000 demoEnv
      = .jsonError 403 :=
  ⟨rfl, by decide⟩

/-- C2 counterexample: a user record carrying `tokensValidAfterTime = ""` — a
value that does not parse as a number (`parseInt("")` is `NaN`) — does not
make `verifyIdToken(·, checkRevoked = true)` fail with
`invalid-revocation-format` as claimed: the guard
`if (userRecord.tokensValidAfterTime)` treats the empty string as absent and
the call succeeds. -/
theorem C2_empty_validafter_counterexample :
    parseIntJS "" = none ∧
    (verifyIdToken "demo-project" demoHeader demoPayload true 5000
        ⟨.ok ["kid1"], true, .ok ⟨some [⟨"user-1", some ""⟩]⟩⟩).result
      = .ok demoPayload :=
  ⟨rfl, rfl⟩

/-- C2 (amended: the malformed-timestamp clause applies to records carrying a
truthy, i.e. non-empty, `tokensValidAfterTime` string): for every
`verifyIdToken(token, checkRevoked = true)` call that passes signature
verification, a missing user record fails with `user-not-found`; a non-empty
`tokensValidAfterTime` that does not parse as a number fails with
`invalid-revocation-format`; and one that parses to `v` fails with
`id-token-revoked` exactly when `auth_time < v`. -/
theorem C2_revocation_semantics (projectId : String) (header : JwtHeaderM)
    (payload : JwtPayloadM) (now : Int) (env : VerifyEnv)
    (kids : List String) (iat0 exp0 aTime : Int)
    (h1 : header.alg = "RS256") (h2 : truthyStr header.kid = true)
    (h3 : payload.aud = some projectId)
    (h4 : payload.iss = some (FIREBASE_ISSUER projectId))
    (h5 : validSub payload.sub = true)
    (hat : payload.auth_time = some aTime)
    (h6 : payload.iat = some iat0) (h7 : iat0 ≤ now + 300)
    (h8 : payload.exp = some exp0) (h9 : now < exp0)
    (h10 : env.keyFetch = .ok kids)
    (h11 : kids.contains (header.kid.getD "") = true)
    (h12 : env.sigOk = true) :
    (getUserRecord env.lookup = none →
      (verifyIdToken projectId header payload true now env).result
        = .error "user-not-found") ∧
    (∀ urec s, getUserRecord env.lookup = some urec →
      urec.tokensValidAfterTime = some s → s ≠ "" →
      ((parseIntJS s = none →
        (verifyIdToken projectId header payload true now env).result
          = .error "invalid-revocation-format") ∧
       (∀ v, parseIntJS s = some v →
        ((verifyIdToken projectId header payload true now env).result
            = .error "id-token-revoked" ↔ aTime < v)))) := by
  rw [verifyIdToken_revoked_eq projectId header payload now env kids iat0 exp0 aTime
        h1 h2 h3 h4 h5 hat h6 h7 h8 h9 h10 h11 h12]
  refine ⟨fun hn => ?_, fun urec s hu hs hne => ⟨fun hp => ?_, fun v hp => ?_⟩⟩
  · simp [revocationCheck, hn]
  · simp [revocationCheck, hu, hs, hne, hp, truthyStr]
  · by_cases hlt : aTime < v <;>
      simp [revocationCheck, hu, hs, hne, hp, truthyStr, hlt]

/-- C2 witness: a concrete revoked token — `auth_time = 1000` against a record
with `tokensValidAfterTime = "2000"` — fails with `id-token-revoked`. -/
theorem C2_revocation_semantics_witness :
    (verifyIdToken "demo-project" demoHeader demoPayload true 5000
        ⟨.ok ["kid1"], true, .ok ⟨some [⟨"user-1", some "2000"⟩]⟩⟩).result
      = .error "id-token-revoked" :=
  (((C2_revocation_semantics "demo-project" demoHeader demoPayload 5000
      ⟨.ok ["kid1"], true, .ok ⟨some [⟨"user-1", some "2000"⟩]⟩⟩ ["kid1"] 1000 9000 1000
      rfl rfl rfl rfl rfl rfl rfl (by omega) rfl (by omega) rfl rfl rfl).2
    ⟨"user-1", some "2000"⟩ "2000" rfl rfl (by decide)).2 2000 rfl).mpr (by omega)

/-- C3 counterexample: a token whose decoded `aud` differs from the project id
but whose header algorithm is not RS256 fails with `invalid-algorithm`, not
`invalid-audience` — the universal "fails with invalid-audience" of the claim does
not hold for tokens that trip an earlier pipeline stage. -/
theorem C3_alg_before_audience_counterexample :
    (some "other" : Option String) ≠ some "demo-project" ∧
    (verifyIdToken "demo-project" ⟨"HS256", some "kid1"⟩
        { demoPayload with aud := some "other" } false 5000 demoEnv).result
      = .error "invalid-algorithm" ∧
    ("invalid-algorithm" : String) ≠ "invalid-audience" :=
  ⟨by decide, rfl, by decide⟩

/-- C3 (amended: the `invalid-audience` code additionally requires the token
to pass the earlier algorithm and key-id stages): for every decoded token
whose `aud` differs from the configured project id, the public-key fetch is
never invoked during the call, and if the token moreover has algorithm RS256
and a truthy `kid`, the call fails with `invalid-audience`. -/
theorem C3_audience_check (projectId : String) (header : JwtHeaderM)
    (payload : JwtPayloadM) (checkRevoked : Bool) (now : Int) (env : VerifyEnv)
    (haud : payload.aud ≠ some projectId) :
    (verifyIdToken projectId header payload checkRevoked now env).keyFetchInvoked = false ∧
    (header.alg = "RS256" → truthyStr header.kid = true →
      (verifyIdToken projectId header payload checkRevoked now env).result
        = .error "invalid-audience") := by
  constructor
  · by_cases h1 : header.alg = "RS256"
    · by_cases h2 : truthyStr header.kid = true
      · simp [verifyIdToken, h1, h2, haud]
      · simp [verifyIdToken, h1, h2]
    · simp [verifyIdToken, h1]
  · intro h1 h2
    simp [verifyIdToken, h1, h2, haud]

/-- C3 witness: a concrete RS256 token with wrong audience fails with
`invalid-audience` and never triggers the key fetch. -/
theorem C3_audience_check_witness :
    ((some "other" : Option String) ≠ some "demo-project") ∧
    (verifyIdToken "demo-project" demoHeader { demoPayload with aud := some "other" }
        false 5000 demoEnv).keyFetchInvoked = false ∧
    (verifyIdToken "demo-project" demoHeader { demoPayload with aud := some "other" }
        false 5000 demoEnv).result = .error "invalid-audience" :=
  ⟨by decide,
   (C3_audience_check "demo-project" demoHeader { demoPayload with aud := some "other" }
      false 5000 demoEnv (by decide)).1,
   (C3_audience_check "demo-project" demoHeader { demoPayload with aud := some "other" }
      false 5000 demoEnv (by decide)).2 rfl rfl⟩

/-- C10: whenever the `accounts:lookup` performed inside
`verifyIdToken(token, checkRevoked = true)` fails for any reason — a network
failure, a non-2xx response, a response without a `users` array, or one with
an empty `users` array — `#getUserRecord` yields `null` and the call fails
with `user-not-found`: transient infrastructure failures are indistinguishable
from a deleted user at this interface. -/
theorem C10_lookup_failures_user_not_found (projectId : String) (header : JwtHeaderM)
    (payload : JwtPayloadM) (now : Int) (env : VerifyEnv)
    (kids : List String) (iat0 exp0 aTime : Int)
    (h1 : header.alg = "RS256") (h2 : truthyStr header.kid = true)
    (h3 : payload.aud = some projectId)
    (h4 : payload.iss = some (FIREBASE_ISSUER projectId))
    (h5 : validSub payload.sub = true)
    (hat : payload.auth_time = some aTime)
    (h6 : payload.iat = some iat0) (h7 : iat0 ≤ now + 300)
    (h8 : payload.exp = some exp0) (h9 : now < exp0)
    (h10 : env.keyFetch = .ok kids)
    (h11 : kids.contains (header.kid.getD "") = true)
    (h12 : env.sigOk = true)
    (hfail : (∃ m, env.lookup = .error (.network m)) ∨
             (∃ st, env.lookup = .error (.httpError st)) ∨
             env.lookup = .ok ⟨none⟩ ∨
             env.lookup = .ok ⟨some []⟩) :
    (verifyIdToken projectId header payload true now env).result
      = .error "user-not-found" := by
  rw [verifyIdToken_revoked_eq projectId header payload now env kids iat0 exp0 aTime
        h1 h2 h3 h4 h5 hat h6 h7 h8 h9 h10 h11 h12]
  have hrec : getUserRecord env.lookup = none := by
    rcases hfail with ⟨m, hm⟩ | ⟨st, hst⟩ | hnone | hemp <;>
      simp [getUserRecord, *]
  simp [revocationCheck, hrec]

/-- C10 witness: a concrete network failure during the lookup surfaces as
`user-not-found`. -/
theorem C10_lookup_failures_user_not_found_witness :
    (verifyIdToken "demo-project" demoHeader demoPayload true 5000
        ⟨.ok ["kid1"], true, .error (.network "connection reset")⟩).result
      = .error "user-not-found" :=
  C10_lookup_failures_user_not_found "demo-project" demoHeader demoPayload 5000
    ⟨.ok ["kid1"], true, .error (.network "connection reset")⟩ ["kid1"] 1000 9000 1000
    rfl rfl rfl rfl rfl rfl rfl (by omega) rfl (by omega) rfl rfl rfl
    (Or.inl ⟨"connection reset", rfl⟩)

/-- When the cache is absent or expired, `#fetchGooglePublicKeys` runs the
fetch/import path. -/
theorem fetchGooglePublicKeys_miss (cache : Option JwkCacheEntry) (now : Int)
    (resp : Option FetchResponseM)
    (hmiss : ∀ e, cache = some e → e.expiry ≤ now) :
    fetchGooglePublicKeys cache now resp = fetchMiss cache now resp := by
  cases cache with
  | none => rfl
  | some e =>
    have he := hmiss e rfl
    simp [fetchGooglePublicKeys, show ¬ (now < e.expiry) from by omega]

/-- C4: key fetching is all-or-nothing.  On a cache miss: a malformed key in
the fetched JWKS fails the whole call (`invalid-jwk`) leaving the cached set
unchanged; a key that fails to import fails the whole call
(`jwk-processing-error`) leaving the cache unchanged; an empty imported key
set fails with `no-valid-jwks` leaving the cache unchanged; and on success the
entire cache entry is replaced as one unit with expiry `now + maxAge`, where
`maxAge` defaults to 3600 when the cache-control header is absent or does not
match `max-age=(digits)`. -/
theorem C4_key_fetch_atomicity (cache : Option JwkCacheEntry) (now : Int)
    (r : FetchResponseM)
    (hmiss : ∀ e, cache = some e → e.expiry ≤ now) (hok : r.ok = true) :
    (r.keys.any jwkMalformed = true →
      fetchGooglePublicKeys cache now (some r) = ⟨.error "invalid-jwk", cache⟩) ∧
    (r.keys.any jwkMalformed = false → r.keys.any (fun j => ! j.importOk) = true →
      fetchGooglePublicKeys cache now (some r) = ⟨.error "jwk-processing-error", cache⟩) ∧
    (r.keys = [] →
      fetchGooglePublicKeys cache now (some r) = ⟨.error "no-valid-jwks", cache⟩) ∧
    (r.keys.any jwkMalformed = false → r.keys.any (fun j => ! j.importOk) = false →
      r.keys.filterMap (fun j => j.kid) ≠ [] →
      fetchGooglePublicKeys cache now (some r)
        = ⟨.ok (r.keys.filterMap (fun j => j.kid)),
           some ⟨r.keys.filterMap (fun j => j.kid), now + (parseMaxAge r.cacheControl : Int)⟩⟩) ∧
    parseMaxAge none = 3600 ∧
    (∀ s, findMaxAgeList s.toList = none → parseMaxAge (some s) = 3600) := by
  rw [fetchGooglePublicKeys_miss cache now (some r) hmiss]
  refine ⟨fun hmal => ?_, fun hmal himp => ?_, fun hkeys => ?_,
          fun hmal himp hkids => ?_, rfl, fun s hs => ?_⟩
  · simp [fetchMiss, hok, hmal]
  · simp [fetchMiss, hok, hmal]
    intro hall
    obtain ⟨j, hj, hjbad⟩ : ∃ j ∈ r.keys, j.importOk = false := by simpa using himp
    simp [hall j hj] at hjbad
  · simp [fetchMiss, hok, hkeys]
  · simp [fetchMiss, hok, hmal, hkids]
    simpa using himp
  · show (findMaxAgeList s.toList).getD 3600 = 3600
    rw [hs]
    rfl

/-- C4 witness: with an expired cache, a fetch containing a non-RSA key fails
and keeps the old entry, while a clean fetch with `max-age=1234` replaces the
entry wholesale with expiry `now + 1234`. -/
theorem C4_key_fetch_atomicity_witness :
    fetchGooglePublicKeys (some ⟨["old"], 100⟩) 200
        (some ⟨true, none, [⟨"EC", some "RS256", some "kidA", some "nv", some "ev", true⟩]⟩)
      = ⟨.error "invalid-jwk", some ⟨["old"], 100⟩⟩ ∧
    fetchGooglePublicKeys (some ⟨["old"], 100⟩) 200
        (some ⟨true, some "public, max-age=1234",
               [⟨"RSA", some "RS256", some "kidA", some "nv", some "ev", true⟩]⟩)
      = ⟨.ok ["kidA"], some ⟨["kidA"], 1434⟩⟩ :=
  ⟨(C4_key_fetch_atomicity (some ⟨["old"], 100⟩) 200
      ⟨true, none, [⟨"EC", some "RS256", some "kidA", some "nv", some "ev", true⟩]⟩
      (fun e he => by cases he; decide) rfl).1 rfl,
   (C4_key_fetch_atomicity (some ⟨["old"], 100⟩) 200
      ⟨true, some "public, max-age=1234",
       [⟨"RSA", some "RS256", some "kidA", some "nv", some "ev", true⟩]⟩
      (fun e he => by cases he; decide) rfl).2.2.2.1 rfl rfl (by decide)⟩

/-- C5 counterexample: not every middleware response carries the
Content-Security-Policy header.  A page request without a token that is not on
the auth-flow allow-list is answered by the `redirect` helper
(`NextResponse.redirect`), which sets no CSP header; likewise the API deny
path answers through `errorHandler` (`apiError`), whose bare `new Response`
carries no headers either. -/
theorem C5_redirect_without_csp_counterexample :
    middleware ⟨"/dashboard", none, none, .noToken⟩ = .redirectTo "/login" ∧
    hasCSP (.redirectTo "/login") = false ∧
    middleware ⟨"/api/forms/xyz", none, none, .noToken⟩ = .jsonError 403 ∧
    hasCSP (.jsonError 403) = false :=
  ⟨by decide, rfl, by decide, rfl⟩

/-- C5 (amended: only the shared pass-through response carries the CSP
header): every `NextResponse.next()` pass-through the middleware returns
carries the fixed frame-ancestors Content-Security-Policy header, except the
`/auth/action` unrecognised-mode branch, which returns a fresh response with
no headers set; redirect and JSON-error responses never carry the header. -/
theorem C5_csp_only_on_shared_res (req : MwRequest) (hs : List (String × String))
    (h : middleware req = .next hs) :
    hasCSP (.next hs) = true ∨ (req.pathname = "/auth/action" ∧ hs = []) := by
  unfold middleware at h
  repeat' split at h
  all_goals
    first
      | (simp [errorHandler] at h; done)
      | (left
         simp only [mwRes, MwResponse.next.injEq] at h
         simp [hasCSP, ← h]
         done)
      | (right
         constructor
         · assumption
         · simp only [MwResponse.next.injEq] at h
           exact h.symm)

/-- C5 witness: the excluded-route pass-through for `/api/hc` is a shared-res
response and carries the CSP header. -/
theorem C5_csp_only_on_shared_res_witness :
    middleware ⟨"/api/hc", none, none, .noToken⟩
      = .next [("Content-Security-Policy", contentSecurityPolicyHeaderValue)] ∧
    (hasCSP (.next [("Content-Security-Policy", contentSecurityPolicyHeaderValue)]) = true ∨
      (MwRequest.pathname ⟨"/api/hc", none, none, .noToken⟩ = "/auth/action" ∧
       ([("Content-Security-Policy", contentSecurityPolicyHeaderValue)]
          : List (String × String)) = [])) :=
  ⟨by decide,
   C5_csp_only_on_shared_res ⟨"/api/hc", none, none, .noToken⟩
     [("Content-Security-Policy", contentSecurityPolicyHeaderValue)] (by decide)⟩

/-- While a connect attempt is in flight (`dbInstance` unset, `connectPromise`
stored), every further arrival awaits the stored promise and changes nothing. -/
theorem runArrivals_inflight (k : Nat) (s : ConnState)
    (hdb : s.dbInstance = false) (hp : s.connectPromiseActive = true) :
    runArrivals k s = (s, List.replicate k CallPhase.awaitingExisting) := by
  induction k with
  | zero => simp [runArrivals]
  | succ m ih =>
    simp [runArrivals, ensureConnectedSync, hdb, hp, ih, List.replicate_succ]

/-- C6: `n ≥ 1` concurrent `findOne` calls against a fresh instance invoke
`client.connect()` exactly once — the first arrival initiates, every other
arrival awaits the stored in-flight promise; on success all waiters resume
connected; after a failed attempt both the handle and the in-flight marker are
cleared, the waiters see the error, and a subsequent call starts a fresh
attempt (second `connect()` invocation) that can succeed. -/
theorem C6_connect_coalescing (n : Nat) (hn : 1 ≤ n) :
    (runArrivals n freshConn).1 = ⟨false, true, 1⟩ ∧
    (runArrivals n freshConn).2
      = CallPhase.initiated :: List.replicate (n - 1) CallPhase.awaitingExisting ∧
    settle true (runArrivals n freshConn).1 = ⟨true, true, 1⟩ ∧
    resumeWaiter true (settle true (runArrivals n freshConn).1) = .connected ∧
    settle false (runArrivals n freshConn).1 = ⟨false, false, 1⟩ ∧
    resumeWaiter false (settle false (runArrivals n freshConn).1) = .errored ∧
    ensureConnectedSync (settle false (runArrivals n freshConn).1)
      = (⟨false, true, 2⟩, .initiated) ∧
    settle true (ensureConnectedSync (settle false (runArrivals n freshConn).1)).1
      = ⟨true, true, 2⟩ := by
  obtain ⟨m, rfl⟩ : ∃ m, n = m + 1 := ⟨n - 1, by omega⟩
  have hrun : runArrivals (m + 1) freshConn
      = (⟨false, true, 1⟩, CallPhase.initiated :: List.replicate m CallPhase.awaitingExisting) := by
    have hstep : ensureConnectedSync freshConn = (⟨false, true, 1⟩, .initiated) := rfl
    have hrest := runArrivals_inflight m ⟨false, true, 1⟩ rfl rfl
    simp [runArrivals, hstep, hrest]
  refine ⟨by simp [hrun], by simp [hrun], by simp [hrun, settle],
          by simp [hrun, settle, resumeWaiter],
          by simp [hrun, settle],
          by simp [hrun, settle, resumeWaiter],
          by simp [hrun, settle, ensureConnectedSync],
          by simp [hrun, settle, ensureConnectedSync]⟩

/-- C6 witness: three concurrent calls at a fresh instance give one connect
invocation. -/
theorem C6_connect_coalescing_witness :
    (1 ≤ 3) ∧
    (runArrivals 3 freshConn).1 = ⟨false, true, 1⟩ ∧
    (runArrivals 3 freshConn).2
      = CallPhase.initiated :: List.replicate (3 - 1) CallPhase.awaitingExisting :=
  ⟨by decide, (C6_connect_coalescing 3 (by decide)).1, (C6_connect_coalescing 3 (by decide)).2.1⟩

/-- C7 counterexample: the serialization fix only converts an `ObjectId`-typed
`_id`.  A document whose `_id` is a number keeps it as a number — the returned
id field need not be a plain string — and an `ObjectId` stored under another
field passes through as a raw driver identifier object. -/
theorem C7_nonstring_id_counterexample :
    findOneResult (some [("_id", BsonValue.bnum 5), ("owner", BsonValue.objectId "o1")])
      = some [("_id", BsonValue.bnum 5), ("owner", BsonValue.objectId "o1")] ∧
    BsonValue.isString (BsonValue.bnum 5) = false ∧
    BsonValue.isObjectId (BsonValue.objectId "o1") = true :=
  ⟨rfl, rfl, rfl⟩

/-- C7 (amended: the guarantee is only that `_id` is never a raw `ObjectId`):
in every non-null document returned by `findOne`, a field named `_id` is never
an `ObjectId` (an `ObjectId` `_id` is converted to its hex string); fields not
named `_id` pass through unchanged; and a null raw result is returned as null
while a found document is exactly its sanitized copy. -/
theorem C7_id_never_objectid (doc : List (String × BsonValue)) :
    (∀ kv, kv ∈ sanitizeDoc doc → kv.1 = "_id" → kv.2.isObjectId = false) ∧
    (∀ kv, kv ∈ doc → kv.1 ≠ "_id" → kv ∈ sanitizeDoc doc) ∧
    (∀ h, ("_id", BsonValue.objectId h) ∈ doc → ("_id", BsonValue.bstr h) ∈ sanitizeDoc doc) ∧
    findOneResult none = none ∧
    (∀ raw, findOneResult (some raw) = some (sanitizeDoc raw)) := by
  refine ⟨?_, ?_, ?_, rfl, fun raw => rfl⟩
  · intro kv hkv hid
    simp only [sanitizeDoc, List.mem_map] at hkv
    obtain ⟨a, ha, hfa⟩ := hkv
    by_cases h1 : a.1 = "_id"
    · rw [if_pos h1] at hfa
      cases ha2 : a.2 <;> rw [ha2] at hfa <;> rw [← hfa] <;> rfl
    · rw [if_neg h1] at hfa
      rw [← hfa] at hid
      exact absurd hid h1
  · intro kv hkv hne
    refine List.mem_map.mpr ⟨kv, hkv, ?_⟩
    simp [hne]
  · intro h hmem
    refine List.mem_map.mpr ⟨("_id", BsonValue.objectId h), hmem, ?_⟩
    rfl

/-- C7 witness: a concrete document with an `ObjectId` `_id` comes back with
the hex string in `_id`, which is not an `ObjectId`. -/
theorem C7_id_never_objectid_witness :
    (("_id", BsonValue.bstr "abc")
        ∈ sanitizeDoc [("_id", BsonValue.objectId "abc"), ("x", BsonValue.bnum 3)]) ∧
    BsonValue.isObjectId (BsonValue.bstr "abc") = false :=
  ⟨(C7_id_never_objectid [("_id", BsonValue.objectId "abc"), ("x", BsonValue.bnum 3)]).2.2.1
      "abc" (by decide),
   (C7_id_never_objectid [("_id", BsonValue.objectId "abc"), ("x", BsonValue.bnum 3)]).1
      ("_id", BsonValue.bstr "abc") (by decide) rfl⟩

/-- C8: with a cold or expired cache at the first call, `getAccessToken`
performs exactly one signed-assertion exchange, caches the token with
`expiry = now + expires_in - 60`, and a second call within that window
performs no exchange and returns the cached token unchanged (whatever the
token endpoint would answer on a second exchange). -/
theorem C8_token_cache_single_exchange (c0 : Option AccessToken)
    (now1 now2 expiresIn : Int) (tok : String) (ex2 : Except String (String × Int))
    (hmiss : ∀ t, c0 = some t → t.expiry ≤ now1)
    (hwin : now2 < now1 + expiresIn - 60) :
    fetchAccessToken c0 now1 (.ok (tok, expiresIn))
      = ⟨.ok ⟨tok, now1 + expiresIn - 60⟩, some ⟨tok, now1 + expiresIn - 60⟩, 1⟩ ∧
    fetchAccessToken (some ⟨tok, now1 + expiresIn - 60⟩) now2 ex2
      = ⟨.ok ⟨tok, now1 + expiresIn - 60⟩, some ⟨tok, now1 + expiresIn - 60⟩, 0⟩ := by
  constructor
  · cases c0 with
    | none => rfl
    | some t =>
      have ht := hmiss t rfl
      simp [fetchAccessToken, show ¬ (now1 < t.expiry) from by omega, doExchange]
  · simp [fetchAccessToken, hwin]

/-- C8 witness: minting at `t = 100` with `expires_in = 3600` caches expiry
3640; a second call at `t = 200` returns the cached token with no exchange. -/
theorem C8_token_cache_single_exchange_witness :
    fetchAccessToken none 100 (.ok ("tok", 3600))
      = ⟨.ok ⟨"tok", 3640⟩, some ⟨"tok", 3640⟩, 1⟩ ∧
    fetchAccessToken (some ⟨"tok", 3640⟩) 200 (.error "unreachable")
      = ⟨.ok ⟨"tok", 3640⟩, some ⟨"tok", 3640⟩, 0⟩ :=
  C8_token_cache_single_exchange none 100 200 3600 "tok" (.error "unreachable")
    (fun t ht => by cases ht) (by omega)

/-- C9: `setCustomUserClaims` with a non-empty claims object containing a
reserved key fails with `invalid-claims` before the `accounts:update` request
is issued, and with a reserved-free claims object whose JSON serialization
exceeds 1000 UTF-8 bytes it fails with `claims-too-large` before the request
is issued (in the model, reaching `.ok` is the network boundary). -/
theorem C9_claims_validation (cl : List (String × JsonVal)) (hne : cl ≠ []) :
    (∀ k, k ∈ cl.map (fun kv => kv.1) → k ∈ RESERVED_CLAIMS →
      setCustomUserClaims (some cl) = .error "invalid-claims") ∧
    ((∀ k, k ∈ cl.map (fun kv => kv.1) → k ∉ RESERVED_CLAIMS) →
      utf8Len (jsonStringifyObj cl) > 1000 →
      setCustomUserClaims (some cl) = .error "claims-too-large") := by
  have hempty : cl.isEmpty = false := by
    cases cl
    · exact absurd rfl hne
    · rfl
  constructor
  · intro k hk hres
    have hsome : (findReservedKey cl).isSome := by
      rw [findReservedKey, List.find?_isSome]
      exact ⟨k, hk, by simpa using hres⟩
    obtain ⟨r, hr⟩ := Option.isSome_iff_exists.mp hsome
    simp [setCustomUserClaims, hempty, hr]
  · intro hno hsize
    have hnone : findReservedKey cl = none := by
      rw [findReservedKey, List.find?_eq_none]
      intro x hx
      simpa using hno x hx
    simp [setCustomUserClaims, hempty, hnone, sizeCheckAndSend, MAX_CLAIMS_PAYLOAD_SIZE, hsize]

/-- C9 witness: `\x7b"aud": true\x7d` fails with `invalid-claims`; a single
1000-character string value (1008 serialized bytes) fails with
`claims-too-large`. -/
theorem C9_claims_validation_witness :
    setCustomUserClaims (some [("aud", JsonVal.jbool true)]) = .error "invalid-claims" ∧
    setCustomUserClaims (some [("k", JsonVal.jstr (String.mk (List.replicate 1000 'x')))])
      = .error "claims-too-large" :=
  ⟨(C9_claims_validation [("aud", JsonVal.jbool true)] (by decide)).1 "aud"
      (by decide) (by decide),
   (C9_claims_validation [("k", JsonVal.jstr (String.mk (List.replicate 1000 'x')))]
      (by decide)).2 (by decide) (by
        have hq : jsonStringifyObj [("k", JsonVal.jstr (String.mk (List.replicate 1000 'x')))]
            = "\x7b" ++ ("\"" ++ escCharList "k".toList ++ "\"" ++ ":" ++
                ("\"" ++ escCharList (List.replicate 1000 'x') ++ "\"")) ++ "\x7d" := rfl
        rw [hq]
        simp only [utf8Len_append, utf8Len_escCharList_x]
        decide)⟩
